import Mathlib

/-!
# Verification model of `src/App.py` (Streamlit webcam recorder → S3)

This file gives a shallow embedding of the single source file `src/App.py`
and proves/refutes the specification claims about it.

Modelling conventions:

* Streamlit session state (lines 23-30) is the record `InitState`.  The four
  keys initialized at module top (`recording`, `recorded_video`, `status`,
  `start_time`) always exist after the init block runs at the top of every
  script rerun, so they are plain fields; the `frames` key is created lazily
  (line 47 / line 115) and deleted (line 140 / line 148), so it is modelled
  as `Option (List Frame)` where `none` means the key is absent.
* The `status` strings assigned by the script ("Ready", "Recording",
  "Processing...", and the f-string success message of line 68) are the
  constructors of `Status`.
* A video frame is opaque except for an identity and whether the external
  call `frame.reformat(width=1280, height=720)` (line 131) succeeds on it;
  the encoder and the S3 client are external collaborators, so their
  outcomes are inputs of the model.
* Python exceptions are the type `PyExc`; every constructor models a
  subclass of Python's `Exception`.  Note that `src/App.py` never imports
  the `io` module, yet line 124 evaluates `io.BytesIO()`: in Python this
  raises `NameError` before `av.open` is even called, which the model
  represents with `PyExc.nameError`.
* Uncaught exceptions abort the current script run; mutations of session
  state performed before the raise persist (Streamlit keeps session state
  across reruns).
-/

/-- One captured video frame.  `reformatOk` abstracts whether the external
call `frame.reformat(width=1280, height=720)` succeeds on this frame. -/
structure Frame where
  id : Nat
  reformatOk : Bool
deriving DecidableEq

/-- An encoded packet produced by `stream.encode` (modelled opaquely as the
frame it came from). -/
abbrev Packet := Frame

/-- The byte payload produced by the muxer (`container.output_bytes`),
modelled as the packet sequence it contains; its `length` stands for
`len(video_bytes)`. -/
abbrev Payload := List Packet

/-- The values the script assigns to `st.session_state.status`:
"Ready" (line 28), "Recording" (line 114), "Processing..." (line 120) and
the success message of line 68 (which carries the uploaded size). -/
inductive Status where
  | ready
  | recording
  | processing
  | uploaded (sizeBytes : Nat)
deriving DecidableEq

/-- Streamlit session state after the module-top init block
(lines 23-30) has run.  `frames = none` models the absence of the
`"frames"` key. -/
structure InitState where
  recording : Bool
  recorded_video : Option Payload
  status : Status
  start_time : Option Nat
  frames : Option (List Frame)
deriving DecidableEq

/-- Session state of a fresh session after lines 23-30: `recording = False`,
`recorded_video = None`, `status = "Ready"`, `start_time = None`; the
`"frames"` key does not exist. -/
def initState : InitState :=
  { recording := false
    recorded_video := none
    status := Status.ready
    start_time := none
    frames := none }

/-- Python exceptions that the modelled code can raise.  Every constructor
models a subclass of Python's `Exception` (so all are caught by a bare
`except Exception`). -/
inductive PyExc where
  | nameError
  | reformatError (frameId : Nat)
  | noCredentialsError
  | clientError (code : Nat)
  | otherException (code : Nat)
deriving DecidableEq

/-- Lines 43-49, `video_frame_callback`: while `st.session_state.recording`
is truthy the frame is appended to `st.session_state.frames` (creating the
key as `[]` first when absent, line 46-47); otherwise the session state is
untouched. -/
def video_frame_callback (f : Frame) (s : InitState) : InitState :=
  if s.recording = true then
    { s with frames := some (s.frames.getD [] ++ [f]) }
  else
    s

/-- Body of the Start Recording button handler, lines 112-116. -/
def startHandler (t : Nat) (s : InitState) : InitState :=
  { s with
    recording := true
    start_time := some t
    status := Status.recording
    frames := some [] }

/-- A click on Start Recording.  The button is rendered only under the
guard of line 110 (`webrtc_ctx.state.playing and not st.session_state.recording`),
so outside that guard a start attempt is impossible and leaves the state
unchanged. -/
def attemptStart (playing : Bool) (t : Nat) (s : InitState) : InitState :=
  if playing = true ∧ s.recording = false then startHandler t s else s

/-- Line 131, `frame.reformat(width=1280, height=720)`: the external call
either returns the normalized frame or raises; there is no `try` around it
in the source, so the exception propagates. -/
def reformat (f : Frame) : Except PyExc Frame :=
  if f.reformatOk then Except.ok f else Except.error (PyExc.reformatError f.id)

/-- Line 132, `stream.encode(frame_converted)`: may return a falsy packet
list; modelled as always yielding one packet for the converted frame. -/
def streamEncode (f : Frame) : Option Packet := some f

/-- The encode loop of lines 130-134 as written in the source: each frame is
reformatted (no per-frame exception handling) and the resulting packet is
muxed.  An exception from `reformat` aborts the whole loop.  Note this code
is unreachable in the actual script because line 124 raises `NameError`
first; it is modelled to settle claims about the loop itself. -/
def encodeLoop : List Frame → Except PyExc (List Packet)
  | [] => Except.ok []
  | f :: fs =>
    match reformat f with
    | Except.error e => Except.error e
    | Except.ok fc =>
      match encodeLoop fs with
      | Except.error e => Except.error e
      | Except.ok ps =>
        match streamEncode fc with
        | some p => Except.ok (p :: ps)
        | none => Except.ok ps

/-- Observable outcome of one run of the Stop & Upload handler
(lines 118-142).  `exc` is the exception escaping the handler (aborting the
script run), `uploadCalled` records whether `upload_to_s3` was invoked,
`encodeAttempted` whether control entered the encode block of line 124, and
`rerun` whether `st.rerun()` (line 142) was reached. -/
structure StopOutcome where
  state : InitState
  exc : Option PyExc
  uploadCalled : Bool
  encodeAttempted : Bool
  rerun : Bool
deriving DecidableEq

/-- The Stop & Upload button handler, lines 118-142, exactly as the source
runs: lines 119-120 set `recording = False` and `status = "Processing..."`;
line 123 tests `"frames" in st.session_state and st.session_state.frames`;
when the buffer is non-empty, line 124 evaluates `io.BytesIO()` — but the
script never imports `io`, so a `NameError` is raised there, before the
encode loop, before `upload_to_s3`, before `del st.session_state.frames`
(line 140) and before `st.rerun()` (line 142).  When the buffer is absent
or empty the block is skipped and `st.rerun()` runs. -/
def stopHandler (s : InitState) : StopOutcome :=
  let s1 := { s with recording := false, status := Status.processing }
  match s.frames with
  | some (_ :: _) =>
    { state := s1
      exc := some PyExc.nameError
      uploadCalled := false
      encodeAttempted := true
      rerun := false }
  | _ =>
    { state := s1
      exc := none
      uploadCalled := false
      encodeAttempted := false
      rerun := true }

/-- The New Recording button handler, lines 145-149: every one of the five
session keys is deleted and the script reruns; the init block of
lines 23-30 then restores the defaults for the four scalar keys and the
`"frames"` key stays absent, so the post-rerun state is the fresh-session
state whatever the previous state was. -/
def resetHandler (_ : InitState) : InitState :=
  { recording := false
    recorded_video := none
    status := Status.ready
    start_time := none
    frames := none }

/-- User-visible events driving the session. -/
inductive Ev where
  | frame (f : Frame)
  | clickStart (playing : Bool) (t : Nat)
  | clickStop
  | clickReset
deriving DecidableEq

/-- One event processed against the session state.  A Stop click is only
possible while `st.session_state.recording` is truthy (guard of line 117);
when the stop handler raises, the session-state mutations it already made
persist. -/
def step : Ev → InitState → InitState
  | Ev.frame f, s => video_frame_callback f s
  | Ev.clickStart p t, s => attemptStart p t s
  | Ev.clickStop, s => if s.recording = true then (stopHandler s).state else s
  | Ev.clickReset, s => resetHandler s

/-- Session states reachable from a fresh session by any sequence of frame
deliveries and button clicks. -/
inductive Reachable : InitState → Prop where
  | init : Reachable initState
  | step (ev : Ev) {s : InitState} : Reachable s → Reachable (step ev s)

/-- A Recording-state session holding the frame list `fs`
(as produced by a Start click followed by frame deliveries). -/
def recordingState (fs : List Frame) : InitState :=
  { recording := true
    recorded_video := none
    status := Status.recording
    start_time := some 0
    frames := some fs }

/-- Wall-clock time as the fields `time.strftime("%Y%m%d-%H%M%S")`
reads from the local clock. -/
structure Tm where
  year : Nat
  month : Nat
  day : Nat
  hour : Nat
  minute : Nat
  second : Nat
deriving DecidableEq

/-- Two-digit zero-padded decimal rendering, as strftime's `%m`, `%d`,
`%H`, `%M`, `%S` produce for in-range values. -/
def pad2c (n : Nat) : List Char :=
  [Nat.digitChar (n / 10 % 10), Nat.digitChar (n % 10)]

/-- Four-digit zero-padded decimal rendering, as strftime's `%Y` produces
for years below 10000. -/
def pad4c (n : Nat) : List Char :=
  [Nat.digitChar (n / 1000 % 10), Nat.digitChar (n / 100 % 10),
   Nat.digitChar (n / 10 % 10), Nat.digitChar (n % 10)]

/-- Line 54: `time.strftime("%Y%m%d-%H%M%S")`. -/
def strftimeChars (t : Tm) : List Char :=
  pad4c t.year ++ pad2c t.month ++ pad2c t.day ++ ['-'] ++
    pad2c t.hour ++ pad2c t.minute ++ pad2c t.second

/-- Line 55, character content of
`f"recordings/webcam-{timestamp}-{uuid.uuid4().hex[:8]}.mkv"`, where
`uuidHex` is the 32-character `uuid.uuid4().hex` string and `[:8]` is
`List.take 8`. -/
def fileKeyChars (t : Tm) (uuidHex : String) : List Char :=
  "recordings/webcam-".data ++ strftimeChars t ++ ['-'] ++
    uuidHex.data.take 8 ++ ".mkv".data

/-- Line 55: the object key passed to `put_object`. -/
def fileKey (t : Tm) (uuidHex : String) : String :=
  ⟨fileKeyChars t uuidHex⟩

/-- Outcome of the external S3 `put_object` call (line 58): success, or one
of the exception classes the caller distinguishes. -/
inductive PutOutcome where
  | ok
  | noCredentials
  | clientError (code : Nat)
  | otherError (code : Nat)
deriving DecidableEq

/-- The external call `s3.put_object(...)` (lines 58-63) as seen by the
caller: returns normally or raises the corresponding exception. -/
def put_object (out : PutOutcome) : Except PyExc Unit :=
  match out with
  | PutOutcome.ok => Except.ok ()
  | PutOutcome.noCredentials => Except.error PyExc.noCredentialsError
  | PutOutcome.clientError c => Except.error (PyExc.clientError c)
  | PutOutcome.otherError c => Except.error (PyExc.otherException c)

/-- The user-facing error messages of lines 73, 75 and 77. -/
inductive UploadMsg where
  | credentialsInvalid
  | s3Error (code : Nat)
  | uploadFailed (code : Nat)
deriving DecidableEq

/-- Observable result of one `upload_to_s3` call: the session state after
the call, the object key passed to `put_object`, the error message shown
(if any), and whether the success branch ran. -/
structure UploadResultM where
  state : InitState
  keyUsed : String
  message : Option UploadMsg
  succeeded : Bool
deriving DecidableEq

/-- Lines 51-77, `upload_to_s3(video_bytes)`: the whole body sits in a
`try` whose `except` chain handles `NoCredentialsError`, `ClientError` and
finally every remaining `Exception`; the result type `Except PyExc _`
makes an uncaught escape representable, and the theorems show it never
happens.  On success line 68 sets the status to the uploaded message
(with `len(video_bytes)`); on failure the status is left unchanged and an
error message is shown. -/
def upload_to_s3 (t : Tm) (uuidHex : String) (out : PutOutcome)
    (video_bytes : Payload) (s : InitState) : Except PyExc UploadResultM :=
  let file_key := fileKey t uuidHex
  match put_object out with
  | Except.ok _ =>
    Except.ok
      { state := { s with status := Status.uploaded video_bytes.length }
        keyUsed := file_key
        message := none
        succeeded := true }
  | Except.error e =>
    match e with
    | PyExc.noCredentialsError =>
      Except.ok
        { state := s, keyUsed := file_key
          message := some UploadMsg.credentialsInvalid, succeeded := false }
    | PyExc.clientError c =>
      Except.ok
        { state := s, keyUsed := file_key
          message := some (UploadMsg.s3Error c), succeeded := false }
    | PyExc.otherException c =>
      Except.ok
        { state := s, keyUsed := file_key
          message := some (UploadMsg.uploadFailed c), succeeded := false }
    | _ =>
      Except.ok
        { state := s, keyUsed := file_key
          message := some (UploadMsg.uploadFailed 0), succeeded := false }

/-- Configuration read from Streamlit secrets, lines 11-14. -/
structure Config where
  access_key : String
  secret_key : String
  region : String
  bucket : String
deriving DecidableEq

/-- Lines 10-17: the `try` block reads `AWS_ACCESS_KEY_ID`,
`AWS_SECRET_ACCESS_KEY`, `AWS_REGION` (`.get` with default "us-east-1",
which never raises) and `S3_BUCKET` in that order; a missing required key
raises `KeyError`, caught by line 15. -/
def loadConfig (secrets : String → Option String) : Option Config :=
  match secrets "AWS_ACCESS_KEY_ID" with
  | none => none
  | some ak =>
    match secrets "AWS_SECRET_ACCESS_KEY" with
    | none => none
    | some sk =>
      let region := (secrets "AWS_REGION").getD "us-east-1"
      match secrets "S3_BUCKET" with
      | none => none
      | some b => some { access_key := ak, secret_key := sk, region := region, bucket := b }

/-- Result of module start-up: either the process halted at line 17
(`st.stop()`), before the title, the session-state init block and the
widgets, or it is running with a configuration and the fresh session
state. -/
inductive AppStart where
  | halted
  | running (cfg : Config) (s : InitState)
deriving DecidableEq

/-- Module top level, lines 10-30: configuration loading, then (only if it
succeeded) UI construction and session-state initialization. -/
def appStart (secrets : String → Option String) : AppStart :=
  match loadConfig secrets with
  | none => AppStart.halted
  | some cfg => AppStart.running cfg initState

/-- A hexadecimal digit character. -/
def isHexChar (c : Char) : Bool :=
  c.isDigit || ('a' ≤ c && c ≤ 'f') || ('A' ≤ c && c ≤ 'F')

/-- The naming convention of the spec:
`recordings/webcam-<YYYYMMDD-HHMMSS>-<8 hex chars>.<ext>`.
Modelled from the spec's words, to be compared with the key the source
builds. -/
def specNamingConvention (k : String) : Prop :=
  ∃ dts hms suf ext : List Char,
    k.data =
      "recordings/webcam-".data ++ dts ++ ['-'] ++ hms ++ ['-'] ++ suf ++ ['.'] ++ ext ∧
    dts.length = 8 ∧ (∀ c ∈ dts, c.isDigit = true) ∧
    hms.length = 6 ∧ (∀ c ∈ hms, c.isDigit = true) ∧
    suf.length = 8 ∧ (∀ c ∈ suf, isHexChar c = true)

/-- The 8 suffix characters of a well-formed object key (positions 34-41). -/
def keySuffix8 (k : List Char) : List Char :=
  (k.drop 34).take 8

/-! ## Helper lemmas -/

/-- Whatever the frame buffer holds, the stop handler leaves the session
state with `recording = False` and status "Processing..." (lines 119-120),
touching nothing else. -/
theorem stopHandler_state (s : InitState) :
    (stopHandler s).state = { s with recording := false, status := Status.processing } := by
  unfold stopHandler
  cases hf : s.frames with
  | none => rfl
  | some l => cases l with
    | nil => rfl
    | cons f fs => rfl

/-- On every reachable session state the `recording` flag agrees with the
status being "Recording". -/
theorem reachable_flag_iff {s : InitState} (h : Reachable s) :
    s.recording = true ↔ s.status = Status.recording := by
  induction h with
  | init => simp [initState]
  | step ev h ih =>
    rename_i s'
    cases ev with
    | frame f =>
      show (video_frame_callback f s').recording = true ↔
        (video_frame_callback f s').status = Status.recording
      unfold video_frame_callback
      by_cases hr : s'.recording = true
      · rw [if_pos hr]
        simpa using ih
      · rw [if_neg hr]
        exact ih
    | clickStart p t =>
      show (attemptStart p t s').recording = true ↔
        (attemptStart p t s').status = Status.recording
      unfold attemptStart startHandler
      by_cases hc : p = true ∧ s'.recording = false
      · rw [if_pos hc]
        simp
      · rw [if_neg hc]
        exact ih
    | clickStop =>
      show (if s'.recording = true then (stopHandler s').state else s').recording = true ↔
        (if s'.recording = true then (stopHandler s').state else s').status = Status.recording
      by_cases hr : s'.recording = true
      · rw [if_pos hr, stopHandler_state]
        simp
      · rw [if_neg hr]
        exact ih
    | clickReset =>
      simp [step, resetHandler]

/-- A non-fatal exception inside the encode loop is impossible to swallow:
if any frame of the buffer fails `reformat`, the loop of lines 130-134
returns an error instead of a packet list. -/
theorem encodeLoop_isError_of_bad (fs : List Frame)
    (hex : ∃ f ∈ fs, f.reformatOk = false) :
    ∃ e, encodeLoop fs = Except.error e := by
  induction fs with
  | nil => simp at hex
  | cons g gs ih =>
    rcases hex with ⟨f, hmem, hbad⟩
    rcases List.mem_cons.mp hmem with rfl | hmem'
    · refine ⟨PyExc.reformatError f.id, ?_⟩
      simp [encodeLoop, reformat, hbad]
    · by_cases hg : g.reformatOk = true
      · rcases ih ⟨f, hmem', hbad⟩ with ⟨e, he⟩
        refine ⟨e, ?_⟩
        simp [encodeLoop, reformat, hg, he]
      · refine ⟨PyExc.reformatError g.id, ?_⟩
        simp [encodeLoop, reformat, Bool.eq_false_iff.mpr hg]

/-! ## Claim theorems -/

/-- C1: on every reachable session state, the frame callback appends the
delivered frame to the frame buffer exactly when the recorder status is
"Recording", and in any other state (Ready, Processing, ...) the callback
leaves the session state completely unchanged. -/
theorem frame_buffer_grows_iff_recording (s : InitState) (f : Frame)
    (h : Reachable s) :
    ((video_frame_callback f s).frames.getD [] = s.frames.getD [] ++ [f] ↔
      s.status = Status.recording) ∧
    (s.status ≠ Status.recording → video_frame_callback f s = s) := by
  have hiff := reachable_flag_iff h
  have hnotrec : s.status ≠ Status.recording → s.recording = false := by
    intro hst
    cases hcase : s.recording with
    | false => rfl
    | true => exact absurd (hiff.mp hcase) hst
  constructor
  · constructor
    · intro happ
      by_contra hst
      have hr : s.recording = false := hnotrec hst
      unfold video_frame_callback at happ
      rw [hr] at happ
      simp at happ
    · intro hst
      have hr : s.recording = true := hiff.mpr hst
      unfold video_frame_callback
      rw [hr]
      simp
  · intro hst
    have hr : s.recording = false := hnotrec hst
    unfold video_frame_callback
    rw [hr]
    simp

/-- C1 witness: in the fresh (Ready) session state the callback is a
no-op. -/
theorem frame_buffer_grows_witness :
    video_frame_callback ⟨0, true⟩ initState = initState :=
  (frame_buffer_grows_iff_recording initState ⟨0, true⟩ Reachable.init).2 (by decide)

/-- C8: the New Recording (reset) handler is valid from any state and
idempotent — running it twice gives exactly the state of running it once:
status "Ready", no frame buffer, no start timestamp. -/
theorem reset_idempotent_from_any_state (s : InitState) :
    resetHandler (resetHandler s) = resetHandler s ∧
    (resetHandler s).status = Status.ready ∧
    (resetHandler s).frames = none ∧
    (resetHandler s).start_time = none := by
  refine ⟨rfl, rfl, rfl, rfl⟩

/-- C4: a Stop click while the frame buffer is absent or empty
short-circuits the flush: no encode block is entered, `upload_to_s3` is
never called, no exception escapes, the rerun of line 142 is reached, and
the only state change is `recording = False` with status "Processing...". -/
theorem stop_empty_buffer_short_circuits (s : InitState)
    (_hrec : s.recording = true)
    (hfr : s.frames = none ∨ s.frames = some []) :
    (stopHandler s).exc = none ∧
    (stopHandler s).uploadCalled = false ∧
    (stopHandler s).encodeAttempted = false ∧
    (stopHandler s).rerun = true ∧
    (stopHandler s).state = { s with recording := false, status := Status.processing } := by
  rcases hfr with hfr | hfr <;>
    refine ⟨?_, ?_, ?_, ?_, ?_⟩ <;>
    simp [stopHandler, hfr]

/-- C4 witness: stopping immediately after a Start click (buffer present
but empty) performs no encode and no upload. -/
theorem stop_empty_buffer_witness :
    (stopHandler (attemptStart true 0 initState)).exc = none ∧
    (stopHandler (attemptStart true 0 initState)).uploadCalled = false :=
  ⟨(stop_empty_buffer_short_circuits (attemptStart true 0 initState)
      (by decide) (Or.inr (by decide))).1,
   (stop_empty_buffer_short_circuits (attemptStart true 0 initState)
      (by decide) (Or.inr (by decide))).2.1⟩

/-- C2 counterexample: after starting and then stopping with an empty
buffer, the session is in the "Processing..." state (not Ready), and a
Start click from there does not fail and does not leave the state
unchanged — it transitions to Recording, contradicting the claim that
`start()` outside Ready fails with `InvalidStateError` and changes
nothing. -/
theorem start_accepted_while_processing :
    ((stopHandler (attemptStart true 0 initState)).state.status = Status.processing) ∧
    ((stopHandler (attemptStart true 0 initState)).state.status ≠ Status.ready) ∧
    (attemptStart true 5 (stopHandler (attemptStart true 0 initState)).state ≠
      (stopHandler (attemptStart true 0 initState)).state) ∧
    ((attemptStart true 5 (stopHandler (attemptStart true 0 initState)).state).status =
      Status.recording) := by
  decide

/-- C2 amended: a Start click is guarded only by the `recording` flag
(line 110), never by the status.  While Recording it is a silent no-op
(the button is not rendered; no `InvalidStateError` exists in the code)
and the state and buffer are unchanged; whenever the flag is off — status
Ready, but also a stale "Processing..." or the success message — the click
transitions to Recording, resets the frame buffer to empty and records the
start timestamp. -/
theorem start_guarded_by_recording_flag (s : InitState) (t : Nat) :
    (s.recording = true → attemptStart true t s = s) ∧
    (s.recording = false → attemptStart true t s =
      { s with recording := true, status := Status.recording,
               start_time := some t, frames := some [] }) := by
  constructor
  · intro hr
    unfold attemptStart
    rw [if_neg]
    simp [hr]
  · intro hr
    unfold attemptStart startHandler
    rw [if_pos ⟨rfl, hr⟩]

/-- C2 witness: from the fresh Ready state a Start click at time 3 enters
Recording with an empty buffer and start time 3. -/
theorem start_guarded_witness :
    attemptStart true 3 initState =
      { initState with recording := true, status := Status.recording,
                       start_time := some 3, frames := some [] } :=
  (start_guarded_by_recording_flag initState 3).2 rfl

/-- C3: evaluation of the code at the failing input.  Stopping a Recording
session holding one frame raises the `NameError` of line 124 (the `io`
module is never imported), so the flush pipeline never completes:
`upload_to_s3` is never invoked (no `PermissionOrBucketError`
classification can be produced), the status is left at "Processing..." —
not "Ready" — and the frame buffer is still present. -/
theorem stop_flush_never_completes :
    ((stopHandler (recordingState [⟨0, true⟩])).exc = some PyExc.nameError) ∧
    ((stopHandler (recordingState [⟨0, true⟩])).uploadCalled = false) ∧
    ((stopHandler (recordingState [⟨0, true⟩])).state.status = Status.processing) ∧
    ((stopHandler (recordingState [⟨0, true⟩])).state.status ≠ Status.ready) ∧
    ((stopHandler (recordingState [⟨0, true⟩])).state.frames = some [⟨0, true⟩]) := by
  decide

/-- C5 counterexample: a buffer whose first frame fails normalization and
whose second frame is fine.  The flush does not drop the bad frame and
continue: the stop handler aborts with an uncaught exception before any
upload, and the encode loop itself (lines 130-134) turns the single bad
frame into an error — while the remaining frame alone would encode fine. -/
theorem reformat_failure_not_skipped :
    ((stopHandler (recordingState [⟨7, false⟩, ⟨8, true⟩])).exc.isSome = true) ∧
    ((stopHandler (recordingState [⟨7, false⟩, ⟨8, true⟩])).uploadCalled = false) ∧
    (encodeLoop [⟨7, false⟩, ⟨8, true⟩] = Except.error (PyExc.reformatError 7)) ∧
    (encodeLoop [⟨8, true⟩] = Except.ok [⟨8, true⟩]) :=
  ⟨by decide, by decide, rfl, rfl⟩

/-- C5 amended: a normalization failure on a single frame is not tolerated.
For any non-empty buffer the flush aborts before even reaching the loop
(the `NameError` of line 124) and no upload happens; and the encode loop as
written has no per-frame handling either — a buffer containing a frame
that fails `reformat` makes the whole loop return an error instead of
skipping that frame. -/
theorem normalization_failure_aborts_flush (s : InitState) (fs : List Frame)
    (hfr : s.frames = some fs) (hne : fs ≠ []) :
    ((stopHandler s).exc = some PyExc.nameError) ∧
    ((stopHandler s).uploadCalled = false) ∧
    ((stopHandler s).rerun = false) ∧
    ((∃ f ∈ fs, f.reformatOk = false) → ∃ e, encodeLoop fs = Except.error e) := by
  obtain ⟨g, gs, rfl⟩ : ∃ g gs, fs = g :: gs := by
    cases fs with
    | nil => exact absurd rfl hne
    | cons a b => exact ⟨a, b, rfl⟩
  exact ⟨by simp [stopHandler, hfr], by simp [stopHandler, hfr],
    by simp [stopHandler, hfr], fun hex => encodeLoop_isError_of_bad _ hex⟩

/-- C5 witness: the amended statement evaluated on a one-frame buffer whose
frame fails normalization. -/
theorem normalization_failure_witness :
    (stopHandler (recordingState [⟨9, false⟩])).exc = some PyExc.nameError :=
  (normalization_failure_aborts_flush (recordingState [⟨9, false⟩]) [⟨9, false⟩]
    rfl (by decide)).1

/-- C6: evaluation of the code at the failing input.  Stopping a Recording
session with a two-frame buffer never releases the buffer: the `NameError`
of line 124 aborts the handler before `del st.session_state.frames`
(line 140) runs, so the frames stay in session state and the rerun of
line 142 is never reached. -/
theorem frames_not_released_after_stop :
    ((stopHandler (recordingState [⟨1, true⟩, ⟨2, true⟩])).state.frames =
      some [⟨1, true⟩, ⟨2, true⟩]) ∧
    ((stopHandler (recordingState [⟨1, true⟩, ⟨2, true⟩])).exc = some PyExc.nameError) ∧
    ((stopHandler (recordingState [⟨1, true⟩, ⟨2, true⟩])).rerun = false) := by
  decide

/-- C10: `upload_to_s3` itself can never propagate an exception — its
`except` chain (`NoCredentialsError`, `ClientError`, bare `Exception`)
covers every exception the body can raise, for every payload, state and
S3 outcome.  But the stop handler does not always run to completion: with
a non-empty buffer it aborts with the `NameError` of line 124 before ever
invoking `upload_to_s3`, before releasing the buffer and before the
rerun. -/
theorem upload_never_propagates :
    (∀ (t : Tm) (u : String) (out : PutOutcome) (payload : Payload) (s : InitState),
      ∃ r, upload_to_s3 t u out payload s = Except.ok r) ∧
    ((stopHandler (recordingState [⟨3, true⟩])).exc = some PyExc.nameError) ∧
    ((stopHandler (recordingState [⟨3, true⟩])).uploadCalled = false) ∧
    ((stopHandler (recordingState [⟨3, true⟩])).rerun = false) := by
  refine ⟨?_, by decide, by decide, by decide⟩
  intro t u out payload s
  cases out <;> exact ⟨_, rfl⟩

/-- C7: the module halts at start-up (line 17, before the title, the
session-state init and every widget) whenever any of the three required
secrets is absent; and when all are present it runs with the fresh session
state and the region defaulted to "us-east-1" when unset. -/
theorem missing_config_halts_startup (secrets : String → Option String) :
    ((secrets "AWS_ACCESS_KEY_ID" = none ∨ secrets "AWS_SECRET_ACCESS_KEY" = none ∨
        secrets "S3_BUCKET" = none) → appStart secrets = AppStart.halted) ∧
    (∀ ak sk b, secrets "AWS_ACCESS_KEY_ID" = some ak →
      secrets "AWS_SECRET_ACCESS_KEY" = some sk → secrets "S3_BUCKET" = some b →
      appStart secrets = AppStart.running
        { access_key := ak, secret_key := sk,
          region := (secrets "AWS_REGION").getD "us-east-1", bucket := b }
        initState) := by
  constructor
  · rintro (h | h | h) <;>
      cases hak : secrets "AWS_ACCESS_KEY_ID" <;>
      cases hsk : secrets "AWS_SECRET_ACCESS_KEY" <;>
      simp_all [appStart, loadConfig]
  · intro ak sk b h1 h2 h3
    simp [appStart, loadConfig, h1, h2, h3]

/-- C7 witness: with `S3_BUCKET` absent (and the other secrets present)
start-up halts. -/
theorem missing_config_halts_witness :
    appStart (fun k => if k = "S3_BUCKET" then none else some "k") = AppStart.halted :=
  (missing_config_halts_startup _).1 (Or.inr (Or.inr (by simp)))

/-- Both digits of a two-digit zero-padded rendering are decimal digits. -/
theorem pad2c_mem_isDigit {c : Char} {n : Nat} (hc : c ∈ pad2c n) : c.isDigit = true := by
  have hdig : ∀ k, k < 10 → (Nat.digitChar k).isDigit = true := by decide
  simp [pad2c] at hc
  rcases hc with rfl | rfl <;> exact hdig _ (Nat.mod_lt _ (by decide))

/-- All four digits of a four-digit zero-padded rendering are decimal
digits. -/
theorem pad4c_mem_isDigit {c : Char} {n : Nat} (hc : c ∈ pad4c n) : c.isDigit = true := by
  have hdig : ∀ k, k < 10 → (Nat.digitChar k).isDigit = true := by decide
  simp [pad4c] at hc
  rcases hc with rfl | rfl | rfl | rfl <;> exact hdig _ (Nat.mod_lt _ (by decide))

/-- The eight characters at positions 34-41 of a generated object key are
exactly the first eight characters of the uuid hex string. -/
theorem keySuffix8_fileKey (t : Tm) (u : String) (hlen : 8 ≤ u.data.length) :
    keySuffix8 (fileKeyChars t u) = u.data.take 8 := by
  have hpre : ("recordings/webcam-".data ++ strftimeChars t ++ ['-']).length = 34 := by
    simp [strftimeChars, pad4c, pad2c]
  have hsplit : fileKeyChars t u =
      ("recordings/webcam-".data ++ strftimeChars t ++ ['-']) ++
        (u.data.take 8 ++ ".mkv".data) := by
    simp [fileKeyChars, List.append_assoc]
  have h8 : (u.data.take 8).length = 8 := by
    rw [List.length_take]
    omega
  unfold keySuffix8
  rw [hsplit, List.drop_left' hpre, List.take_left' h8]

/-- C9: every object key built by `upload_to_s3` (line 55) matches the
naming convention `recordings/webcam-<YYYYMMDD-HHMMSS>-<8 hex chars>.<ext>`
(given the 32-hex-character `uuid.uuid4().hex` input); the key returned
by `upload_to_s3` is exactly that key whatever the S3 outcome; and keys
with distinct 8-character suffixes are distinct, which is what makes the
random suffix collision-resistant across concurrent sessions. -/
theorem upload_key_matches_convention (t : Tm) (u : String)
    (hlen : 8 ≤ u.data.length)
    (hhex : ∀ c ∈ u.data, isHexChar c = true) :
    specNamingConvention (fileKey t u) ∧
    (∀ out payload s r, upload_to_s3 t u out payload s = Except.ok r →
      r.keyUsed = fileKey t u) ∧
    (∀ u' : String, 8 ≤ u'.data.length → u'.data.take 8 ≠ u.data.take 8 →
      fileKey t u ≠ fileKey t u') := by
  refine ⟨?_, ?_, ?_⟩
  · refine ⟨pad4c t.year ++ pad2c t.month ++ pad2c t.day,
      pad2c t.hour ++ pad2c t.minute ++ pad2c t.second,
      u.data.take 8, ['m', 'k', 'v'], ?_, ?_, ?_, ?_, ?_, ?_, ?_⟩
    · show fileKeyChars t u = _
      have hmkv : ".mkv".data = ['.', 'm', 'k', 'v'] := rfl
      simp [fileKeyChars, strftimeChars, hmkv, List.append_assoc]
    · simp [pad4c, pad2c]
    · intro c hc
      rcases List.mem_append.mp hc with hc' | hc'
      · rcases List.mem_append.mp hc' with hc'' | hc''
        · exact pad4c_mem_isDigit hc''
        · exact pad2c_mem_isDigit hc''
      · exact pad2c_mem_isDigit hc'
    · simp [pad2c]
    · intro c hc
      rcases List.mem_append.mp hc with hc' | hc'
      · rcases List.mem_append.mp hc' with hc'' | hc''
        · exact pad2c_mem_isDigit hc''
        · exact pad2c_mem_isDigit hc''
      · exact pad2c_mem_isDigit hc'
    · rw [List.length_take]
      omega
    · intro c hc
      exact hhex c (List.mem_of_mem_take hc)
  · intro out payload s r h
    cases out <;> simp [upload_to_s3, put_object] at h <;> simp [← h]
  · intro u' hlen' hne heq
    apply hne
    have hdata : fileKeyChars t u = fileKeyChars t u' := congrArg String.data heq
    have h1 : keySuffix8 (fileKeyChars t u) = keySuffix8 (fileKeyChars t u') := by
      rw [hdata]
    rw [keySuffix8_fileKey t u hlen, keySuffix8_fileKey t u' hlen'] at h1
    exact h1.symm

/-- C9 witness: the key generated at a concrete time with a concrete uuid
hex string matches the convention. -/
theorem upload_key_matches_witness :
    specNamingConvention
      (fileKey ⟨2026, 10, 12, 9, 30, 5⟩ "0123456789abcdef0123456789abcdef") :=
  (upload_key_matches_convention ⟨2026, 10, 12, 9, 30, 5⟩
    "0123456789abcdef0123456789abcdef" (by decide) (by decide)).1
